import Mathlib

/-!
Verification development for the single-zone video player
(`src/video_player.py`, `src/stream_watchdog.py`, with the HTTP layer of
`src/video_controller.py` as the caller).  The Python classes are shallowly
embedded: the mutable `VideoPlayer` object becomes a `Player` record threaded
through pure operation functions, the effects of the external `mpv` process
(socket appearance, IPC query answers, process liveness) become an explicit
`Env` record of observations, and the watchdog's endless `while` loop becomes
a step function `wstep` on `WState` driven by a list of per-tick observations.
Positions and times (Python floats) are modelled as rationals.
-/

namespace VideoPlayer

/-- Python `str.startswith`, computed on the underlying character lists so
that concrete instances reduce in the kernel. -/
def hasPfx (p s : String) : Bool :=
  p.data.isPrefixOf s.data

/-- Playback status, the values stored in `state["status"]`. -/
inductive PStatus where
  | stopped
  | playing
  | paused
deriving DecidableEq, Repr

/-- The `state` dictionary of `VideoPlayer`. -/
structure PlaybackState where
  status : PStatus
  source : Option String
  position : ℚ
  duration : ℚ
  volume : Int
  loop : Bool
deriving DecidableEq, Repr

/-- The `geometry` dictionary of `VideoPlayer`. -/
structure Geometry where
  x : Int
  y : Int
  width : Int
  height : Int
deriving DecidableEq, Repr

/-- The parts of the `VideoPlayer` object the embedded operations read and
write.  `hasProcess` models `self.process is not None` (the process handle is
kept, alive or dead, once one was spawned). -/
structure Player where
  videoDir : String
  state : PlaybackState
  geometry : Geometry
  hasProcess : Bool
deriving DecidableEq, Repr

/-- Initial object built by `VideoPlayer.__init__`. -/
def initialPlayer : Player :=
  { videoDir := "/opt/rpi-video-player/data/videos"
    state := { status := .stopped, source := none, position := 0, duration := 0,
               volume := 50, loop := true }
    geometry := { x := 0, y := 0, width := 1920, height := 1080 }
    hasProcess := false }

/-- Observations of the external world consumed by one player operation:
whether `poll()` reports the current process alive, whether the IPC socket
file appears within the bounded wait of `play`, the answers of the channel
queries for `time-pos` and `duration` (`none` models every failure path of
`_send_command` and a response without a `data` field), and which local files
exist at a given absolute path. -/
structure Env where
  procAlive : Bool
  socketAppears : Bool
  posQ : Option ℚ
  durQ : Option ℚ
  fileExists : String → Bool

/-- IPC commands written to the control socket by the mutating operations,
in the order `_send_command` is called. -/
inductive Cmd where
  | setPause (b : Bool)
  | seekAbs (q : ℚ)
  | seekRel (q : ℚ)
  | setVol (v : Int)
deriving DecidableEq, Repr

/-- Result of `VideoPlayer.play`: `True`, `False`, or the raised
`FileNotFoundError`. -/
inductive PlayOutcome where
  | success
  | socketTimeout
  | fileNotFound
deriving DecidableEq, Repr

/-- Python `Path(dir) / s`: an absolute right operand replaces the left one. -/
def pathJoin (dir s : String) : String :=
  if hasPfx "/" s then s else dir ++ "/" ++ s

/-- The remote-source test of `play`:
`source.startswith(('rtsp://', 'http://', 'https://'))`. -/
def isRemote (s : String) : Bool :=
  hasPfx "rtsp://" s || hasPfx "http://" s || hasPfx "https://" s

/-- Embeds `VideoPlayer.stop`: always resets status/source/position/duration
and removes the socket file; termination of a live process has no further
effect on the embedded state. -/
def Player.stop (p : Player) : Player :=
  { p with state := { p.state with
      status := .stopped
      source := none
      position := 0
      duration := 0 } }

/-- Embeds `VideoPlayer.get_playback_position`: the answer of the channel
query, with fallback `0` on any failure. -/
def getPlaybackPosition (env : Env) : ℚ :=
  (env.posQ).getD 0

/-- Embeds `VideoPlayer.get_duration`. -/
def getDuration (env : Env) : ℚ :=
  (env.durQ).getD 0

/-- Embeds `VideoPlayer.play`.  State updates mirror the source line by line:
loop/volume are stored first (unclamped), local sources are resolved against
`video_dir` (raising `FileNotFoundError` when absent), a live previous
process is stopped, then the bounded wait for the control socket decides
between the success branch and the failure return. -/
def Player.play (p : Player) (env : Env) (source : String)
    (loop : Option Bool) (volume : Option Int) (seekTo : Option ℚ) :
    Player × PlayOutcome × List Cmd :=
  let st := p.state
  let st := match loop with
    | none => st
    | some b => { st with loop := b }
  let st := match volume with
    | none => st
    | some v => { st with volume := v }
  let p := { p with state := st }
  let resolved : Option String :=
    if isRemote source then some source
    else
      let full := pathJoin p.videoDir source
      if env.fileExists full then some full else none
  match resolved with
  | none => (p, .fileNotFound, [])
  | some src =>
    let p := if p.hasProcess && env.procAlive then p.stop else p
    let p := { p with hasProcess := true }
    if env.socketAppears then
      let p := { p with state := { p.state with status := .playing, source := some src } }
      let cmds := match seekTo with
        | some q => if q > 0 then [Cmd.seekAbs q] else []
        | none => []
      (p, .success, cmds)
    else
      (p, .socketTimeout, [])

/-- Embeds `VideoPlayer.pause` (the playing/paused toggle; no-op when
stopped). -/
def Player.pause (p : Player) : Player × List Cmd :=
  match p.state.status with
  | .playing => ({ p with state := { p.state with status := .paused } }, [.setPause true])
  | .paused => ({ p with state := { p.state with status := .playing } }, [.setPause false])
  | .stopped => (p, [])

/-- Embeds `VideoPlayer.seek`. -/
def Player.seek (p : Player) (q : ℚ) : Player × List Cmd :=
  (p, [.seekAbs q])

/-- Embeds `VideoPlayer.seek_relative`. -/
def Player.seekRelative (p : Player) (q : ℚ) : Player × List Cmd :=
  (p, [.seekRel q])

/-- Embeds `VideoPlayer.set_volume`: clamps to `[0, 100]`, stores, forwards. -/
def Player.setVolume (p : Player) (v : Int) : Player × List Cmd :=
  let w := max 0 (min 100 v)
  ({ p with state := { p.state with volume := w } }, [.setVol w])

/-- Embeds `VideoPlayer.get_status`: when playing or paused the cached
position and duration are overwritten by the query results (fallback `0`),
then the full snapshot (the updated state plus geometry) is returned. -/
def Player.getStatus (p : Player) (env : Env) : Player × (PlaybackState × Geometry) :=
  let st := p.state
  let st :=
    if st.status = .playing ∨ st.status = .paused then
      { st with position := getPlaybackPosition env, duration := getDuration env }
    else st
  ({ p with state := st }, (st, p.geometry))

/-- Embeds `VideoPlayer.set_geometry`: store the new geometry; if playing or
paused, capture source / queried position / pause flag, stop, replay with a
seek target, and re-pause if needed.  In the source a `None` stored source
would raise inside the nested `play`; the state at that point is the
post-`stop` one, which is what the `none` branch returns. -/
def Player.setGeometry (p : Player) (env : Env) (x y w h : Int) :
    Player × List Cmd :=
  let p := { p with geometry := { x := x, y := y, width := w, height := h } }
  if p.state.status = .playing ∨ p.state.status = .paused then
    let currentSource := p.state.source
    let currentPosition := getPlaybackPosition env
    let wasPaused := p.state.status = .paused
    let p := p.stop
    match currentSource with
    | none => (p, [])
    | some src =>
      let r := p.play env src none none (some currentPosition)
      let p := r.1
      if wasPaused then
        let r2 := p.pause
        (r2.1, r.2.2 ++ r2.2)
      else (p, r.2.2)
  else (p, [])

end VideoPlayer

namespace Watchdog

open VideoPlayer (PStatus hasPfx)

/-- `FREEZE_THRESHOLD = 15` seconds. -/
def FREEZE_THRESHOLD : ℚ := 15

/-- `MAX_RESTART_ATTEMPTS = 3`. -/
def MAX_RESTART_ATTEMPTS : Nat := 3

/-- `BACKOFF_TIME = 60` seconds. -/
def BACKOFF_TIME : ℚ := 60

/-- The JSON body returned by `/api/status` as read by the watchdog:
`status.get('status')`, `status.get('source')`, `status.get('position', 0)`,
`status.get('loop', True)`, `status.get('volume', 50)`. -/
structure Report where
  status : PStatus
  source : Option String
  position : ℚ
  loop : Bool
  volume : Int
deriving DecidableEq, Repr

/-- What one iteration of the watchdog loop observes from the outside world:
the wall-clock time `current_time`, the status response (`none` when
`get_status` failed), the answer of the `is_mpv_running` probe, and whether a
`restart_stream` call issued on this tick would return `True`. -/
structure Obs where
  time : ℚ
  report : Option Report
  mpvRunning : Bool
  restartOk : Bool
deriving DecidableEq, Repr

/-- The local variables of the watchdog `main` loop that survive from one
iteration to the next. -/
structure WState where
  lastSource : Option String
  lastLoop : Bool
  lastVolume : Int
  lastPosition : Option ℚ
  lastPositionTime : Option ℚ
  consecutiveFailures : Nat
  restartAttempts : Nat
  inBackoff : Bool
  backoffUntil : Option ℚ
deriving DecidableEq, Repr

/-- The initialisation at the top of `main`. -/
def initialWState : WState :=
  { lastSource := none, lastLoop := true, lastVolume := 50,
    lastPosition := none, lastPositionTime := none,
    consecutiveFailures := 0, restartAttempts := 0,
    inBackoff := false, backoffUntil := none }

/-- The three `restart_reason` classes of the watchdog. -/
inductive Reason where
  | stoppedStream
  | processDied
  | frozen
deriving DecidableEq, Repr

/-- `is_rtsp_stream(source)`: `source and source.startswith('rtsp://')`. -/
def isRtspStream : Option String → Bool
  | none => false
  | some s => hasPfx "rtsp://" s

/-- The failure-classification block (checks 1-3 of the loop body), including
the freeze-tracking update of the `playing` branch.  Returns the updated
state and `some reason` when `needs_restart` ends up true. -/
def checkFailure (s : WState) (now : ℚ) (r : Report) (mpvRunning : Bool) :
    WState × Option Reason :=
  match r.status with
  | .stopped =>
    let s := { s with consecutiveFailures := s.consecutiveFailures + 1 }
    (s, if s.consecutiveFailures ≥ 2 then some .stoppedStream else none)
  | .playing =>
    if !mpvRunning then (s, some .processDied)
    else
      let needs : Option Reason :=
        match s.lastPosition, s.lastPositionTime with
        | some lp, some lpt =>
          if |r.position - lp| < 1/10 ∧ now - lpt ≥ FREEZE_THRESHOLD then
            some .frozen
          else none
        | _, _ => none
      let s :=
        if s.lastPosition ≠ some r.position then
          { s with lastPosition := some r.position, lastPositionTime := some now,
                   consecutiveFailures := 0 }
        else s
      (s, needs)
  | .paused => (s, none)

/-- The `if needs_restart:` block: cap check with backoff entry, otherwise
attempt increment and the `restart_stream` call (issued whether or not it
succeeds; on success the failure counter and freeze tracking are cleared).
The returned `Option Reason` records the issued restart. -/
def restartBlock (s : WState) (now : ℚ) (ok : Bool) (reason : Reason) :
    WState × Option Reason :=
  if s.restartAttempts ≥ MAX_RESTART_ATTEMPTS then
    ({ s with inBackoff := true, backoffUntil := some (now + BACKOFF_TIME),
              restartAttempts := 0 }, none)
  else
    let s := { s with restartAttempts := s.restartAttempts + 1 }
    if ok then
      ({ s with consecutiveFailures := 0, lastPosition := none,
                lastPositionTime := none }, some reason)
    else (s, some reason)

/-- The loop body after the backoff gate: handle a failed status query, the
non-monitored reset branch, and for a monitored source save the stream info,
classify, and either run the restart block or the healthy-recovery reset. -/
def wstepMain (s : WState) (o : Obs) : WState × Option Reason :=
  match o.report with
  | none => (s, none)
  | some r =>
    if isRtspStream r.source then
      let s := { s with lastSource := r.source, lastLoop := r.loop,
                        lastVolume := r.volume }
      let c := checkFailure s o.time r o.mpvRunning
      match c.2 with
      | some reason => restartBlock c.1 o.time o.restartOk reason
      | none =>
        (if c.1.restartAttempts > 0 then { c.1 with restartAttempts := 0 } else c.1,
         none)
    else
      ({ s with lastSource := none, lastPosition := none, lastPositionTime := none,
                consecutiveFailures := 0, restartAttempts := 0 }, none)

/-- The Python truthiness test `in_backoff and backoff_until` (a float is
falsy exactly when it is `0.0`). -/
def backoffActive (s : WState) : Bool :=
  s.inBackoff && (match s.backoffUntil with
    | none => false
    | some b => b != 0)

/-- One full iteration of the watchdog loop, driven by one observation. -/
def wstep (s : WState) (o : Obs) : WState × Option Reason :=
  if backoffActive s then
    if o.time < (s.backoffUntil.getD 0) then (s, none)
    else wstepMain { s with inBackoff := false, restartAttempts := 0 } o
  else wstepMain s o

/-- The per-tick restart-issuance trace of a run. -/
def wtrace : WState → List Obs → List (Option Reason)
  | _, [] => []
  | s, o :: os => (wstep s o).2 :: wtrace (wstep s o).1 os

/-- The state after a run. -/
def wrun : WState → List Obs → WState
  | s, [] => s
  | s, o :: os => wrun (wstep s o).1 os

/-- Number of restart commands issued along an issuance trace. -/
def restartCount (l : List (Option Reason)) : Nat :=
  (l.filterMap id).length

end Watchdog

namespace VideoPlayer

/-- One call of the supervisor/API surface, with the environment observations
it consumes.  These are the operations the HTTP layer forwards to the single
`VideoPlayer` instance. -/
inductive SOp where
  | playOp (env : Env) (source : String) (loop : Option Bool) (volume : Option Int)
      (seekTo : Option ℚ)
  | stopOp
  | pauseOp
  | seekOp (q : ℚ)
  | seekRelOp (q : ℚ)
  | setVolumeOp (v : Int)
  | setGeometryOp (env : Env) (x y w h : Int)
  | getStatusOp (env : Env)

/-- State effect of one supervisor operation. -/
def applyOp (p : Player) : SOp → Player
  | .playOp env src l v sk => (p.play env src l v sk).1
  | .stopOp => p.stop
  | .pauseOp => p.pause.1
  | .seekOp q => (p.seek q).1
  | .seekRelOp q => (p.seekRelative q).1
  | .setVolumeOp v => (p.setVolume v).1
  | .setGeometryOp env x y w h => (p.setGeometry env x y w h).1
  | .getStatusOp env => (p.getStatus env).1

/-- The stored volume is in `[0, 100]`. -/
def volumeInRange (p : Player) : Prop :=
  0 ≤ p.state.volume ∧ p.state.volume ≤ 100

/-- Restriction under which the volume invariant survives `play`: its volume
argument is absent or already within `[0, 100]`. -/
def volArgOK : SOp → Bool
  | .playOp _ _ _ (some v) _ => decide (0 ≤ v ∧ v ≤ 100)
  | _ => true

/-- Volume stored by `play`: exactly its argument when given, otherwise the
previous one; no clamping happens on this path. -/
theorem play_volume (p : Player) (env : Env) (src : String) (l : Option Bool)
    (v : Option Int) (sk : Option ℚ) :
    ((p.play env src l v sk).1).state.volume =
      (match v with | none => p.state.volume | some x => x) := by
  cases l <;> cases v <;>
    simp only [Player.play, Player.stop] <;>
    split <;>
    first
      | rfl
      | (split <;> first | rfl | (split <;> rfl))

/-- Volume stored by `setGeometry`: unchanged on every branch (the nested
`play` is called without a volume argument). -/
theorem setGeometry_volume (p : Player) (env : Env) (x y w h : Int) :
    ((p.setGeometry env x y w h).1).state.volume = p.state.volume := by
  simp only [Player.setGeometry]
  split
  · split
    · rfl
    · next src heq =>
      have hv := play_volume
        (({ p with geometry := { x := x, y := y, width := w, height := h } } : Player).stop)
        env src none none (some (getPlaybackPosition env))
      split
      · simp only [Player.pause]
        split <;> simpa using hv
      · simpa using hv
  · rfl

/-- Preservation of the volume invariant by one supervisor operation whose
play-volume argument (if any) is in range. -/
theorem applyOp_volumeInRange (p : Player) (op : SOp)
    (hp : volumeInRange p) (hop : volArgOK op = true) :
    volumeInRange (applyOp p op) := by
  cases op with
  | playOp env src l v sk =>
    have hv := play_volume p env src l v sk
    cases v with
    | none => simpa [applyOp, volumeInRange, hv] using hp
    | some x =>
      have : 0 ≤ x ∧ x ≤ 100 := by simpa [volArgOK] using hop
      simpa [applyOp, volumeInRange, hv] using this
  | stopOp => simpa [applyOp, Player.stop, volumeInRange] using hp
  | pauseOp =>
    cases h : p.state.status <;>
      simpa [applyOp, Player.pause, h, volumeInRange] using hp
  | seekOp q => simpa [applyOp, Player.seek, volumeInRange] using hp
  | seekRelOp q => simpa [applyOp, Player.seekRelative, volumeInRange] using hp
  | setVolumeOp v =>
    constructor
    · simp [applyOp, Player.setVolume, volumeInRange, le_max_iff]
    · simp [applyOp, Player.setVolume, volumeInRange, max_le_iff, min_le_iff]
  | setGeometryOp env x y w h =>
    simpa [volumeInRange, applyOp, setGeometry_volume p env x y w h] using hp
  | getStatusOp env =>
    cases h : p.state.status <;>
      simpa [applyOp, Player.getStatus, h, volumeInRange] using hp

/-- Preservation of the volume invariant along a whole operation sequence. -/
theorem foldl_volumeInRange (ops : List SOp) :
    ∀ p : Player, volumeInRange p → (ops.all volArgOK = true) →
      volumeInRange (List.foldl applyOp p ops) := by
  induction ops with
  | nil => intro p hp _; simpa using hp
  | cons op ops ih =>
    intro p hp hall
    rw [List.all_cons, Bool.and_eq_true] at hall
    exact ih (applyOp p op) (applyOp_volumeInRange p op hp hall.1) hall.2

/-- Environment used by concrete instances: the socket appears, queries fail,
no local file exists, no previous process is alive. -/
def envRemoteOk : Env :=
  { procAlive := false, socketAppears := true, posQ := none, durQ := none,
    fileExists := fun _ => false }

/-- C1 counterexample: from the initial state, `play` with the integer volume
argument `150` completes (the control socket appears) and leaves the stored
volume at `150`, outside `[0, 100]` — `play` stores its volume argument
without clamping, so the claimed invariant over all supervisor operations is
false. -/
theorem play_volume_unclamped_cex :
    ((initialPlayer.play envRemoteOk "rtsp://cam/stream" none (some 150) none).2.1
        = PlayOutcome.success) ∧
    ((initialPlayer.play envRemoteOk "rtsp://cam/stream" none (some 150) none).1).state.volume
        = 150 ∧
    ¬ ((initialPlayer.play envRemoteOk "rtsp://cam/stream" none (some 150) none).1).state.volume
        ≤ 100 := by
  refine ⟨rfl, rfl, by decide⟩

/-- C1 amended: the stored volume stays within `[0, 100]` after every
sequence of supervisor operations from the initial state, provided each
`play` call's volume argument is absent or itself within `[0, 100]`
(`setVolume` clamps, but `play` stores its argument unclamped). -/
theorem volume_invariant_amended (ops : List SOp) (h : ops.all volArgOK = true) :
    volumeInRange (List.foldl applyOp initialPlayer ops) :=
  foldl_volumeInRange ops initialPlayer (by constructor <;> decide) h

/-- C1 amended, witnessed on a concrete operation sequence exercising
`setVolume` with an out-of-range input and `play` with an in-range volume. -/
theorem volume_invariant_amended_witness :
    ([SOp.setVolumeOp 250,
      SOp.playOp envRemoteOk "rtsp://cam/stream" none (some 80) none,
      SOp.stopOp].all volArgOK = true) ∧
    volumeInRange (List.foldl applyOp initialPlayer
      [SOp.setVolumeOp 250,
       SOp.playOp envRemoteOk "rtsp://cam/stream" none (some 80) none,
       SOp.stopOp]) :=
  ⟨by decide, volume_invariant_amended _ (by decide)⟩

/-- C8: `stop` always yields status `stopped`, source `null`, position `0`,
duration `0`, leaves volume, loop, and geometry unchanged, and is idempotent
(a second `stop` from the already-stopped state produces the identical
player; in the embedding `stop` is a total function, so no error is
raised). -/
theorem stop_idempotent (p : Player) :
    p.stop.state = { status := .stopped, source := none, position := 0, duration := 0,
                     volume := p.state.volume, loop := p.state.loop } ∧
    p.stop.geometry = p.geometry ∧
    p.stop.stop = p.stop :=
  ⟨rfl, rfl, rfl⟩

/-- C9: `setVolume v` stores exactly `clamp(v, 0, 100)`, whatever the player
state (the statement quantifies over every player, stopped ones included),
and touches no other state field. -/
theorem setVolume_clamps (p : Player) (v : Int) :
    ((p.setVolume v).1).state.volume = max 0 (min 100 v) ∧
    ((p.setVolume v).1).state.status = p.state.status ∧
    ((p.setVolume v).1).state.source = p.state.source :=
  ⟨rfl, rfl, rfl⟩

/-- Player with a cached position/duration, mid-playback, used as a concrete
instance for the status-query claims. -/
def stalePlayer : Player :=
  { initialPlayer with
    state := { status := .playing, source := some "rtsp://cam/stream",
               position := 42, duration := 90, volume := 50, loop := true }
    hasProcess := true }

/-- Environment in which both channel queries fail. -/
def envQueryFail : Env :=
  { procAlive := true, socketAppears := false, posQ := none, durQ := none,
    fileExists := fun _ => false }

/-- C2 counterexample: with status `playing` and cached position `42` /
duration `90`, a failing channel query during `getStatus` does not keep the
cached values — both the stored state and the returned snapshot come back
with the fallback `0`. -/
theorem getStatus_stale_cex :
    stalePlayer.state.status = PStatus.playing ∧
    stalePlayer.state.position = 42 ∧
    stalePlayer.state.duration = 90 ∧
    ((stalePlayer.getStatus envQueryFail).1).state.position ≠ 42 ∧
    ((stalePlayer.getStatus envQueryFail).2.1).position ≠ 42 ∧
    ((stalePlayer.getStatus envQueryFail).1).state.duration ≠ 90 ∧
    ((stalePlayer.getStatus envQueryFail).2.1).duration ≠ 90 := by
  refine ⟨rfl, rfl, rfl, by decide, by decide, by decide, by decide⟩

/-- C2 amended: for a playing or paused state, when the channel query for
position (resp. duration) fails during `getStatus`, the stored state and the
returned snapshot hold the fallback value `0` for that field — the cached
value is overwritten, not kept stale. -/
theorem getStatus_query_failure (p : Player) (env : Env)
    (h : p.state.status = PStatus.playing ∨ p.state.status = PStatus.paused) :
    (env.posQ = none →
      ((p.getStatus env).1).state.position = 0 ∧
      ((p.getStatus env).2.1).position = 0) ∧
    (env.durQ = none →
      ((p.getStatus env).1).state.duration = 0 ∧
      ((p.getStatus env).2.1).duration = 0) := by
  constructor
  · intro hq
    constructor <;> simp [Player.getStatus, h, getPlaybackPosition, hq]
  · intro hq
    constructor <;> simp [Player.getStatus, h, getDuration, hq]

/-- C2 amended claim, witnessed on the concrete mid-playback player and the
all-queries-fail environment. -/
theorem getStatus_query_failure_witness :
    (stalePlayer.state.status = PStatus.playing ∨
     stalePlayer.state.status = PStatus.paused) ∧
    ((stalePlayer.getStatus envQueryFail).1).state.position = 0 ∧
    ((stalePlayer.getStatus envQueryFail).1).state.duration = 0 :=
  ⟨Or.inl rfl,
   ((getStatus_query_failure stalePlayer envQueryFail (Or.inl rfl)).1 rfl).1,
   ((getStatus_query_failure stalePlayer envQueryFail (Or.inl rfl)).2 rfl).1⟩

/-- The path a `play` call stores for a given requested source: remote URIs
pass through, local names are resolved against the media directory. -/
def resolvedSource (p : Player) (source : String) : String :=
  if isRemote source then source else pathJoin p.videoDir source

/-- C3: when the resolution step succeeds, a `play` call with the control
socket appearing within the bounded wait returns success, sets status
`playing`, and stores exactly the resolved absolute path (local) or original
URI (remote); with the socket never appearing, from a stopped state, `play`
returns failure and the state stays `stopped`. -/
theorem play_socket_outcome (p : Player) (env : Env) (source : String)
    (l : Option Bool) (v : Option Int) (sk : Option ℚ)
    (hres : isRemote source = true ∨
            env.fileExists (pathJoin p.videoDir source) = true) :
    (env.socketAppears = true →
      (p.play env source l v sk).2.1 = PlayOutcome.success ∧
      ((p.play env source l v sk).1).state.status = PStatus.playing ∧
      ((p.play env source l v sk).1).state.source = some (resolvedSource p source)) ∧
    (env.socketAppears = false → p.state.status = PStatus.stopped →
      (p.play env source l v sk).2.1 = PlayOutcome.socketTimeout ∧
      ((p.play env source l v sk).1).state.status = PStatus.stopped) := by
  constructor
  · intro hsock
    rcases hres with hrem | hfile
    · cases l <;> cases v <;>
        simp [Player.play, hrem, hsock, resolvedSource, Player.stop]
    · by_cases hrem : isRemote source = true
      · cases l <;> cases v <;>
          simp [Player.play, hrem, hsock, resolvedSource, Player.stop]
      · cases l <;> cases v <;>
          simp [Player.play, hrem, hfile, hsock, resolvedSource, Player.stop]
  · intro hsock hstop
    rcases hres with hrem | hfile
    · cases l <;> cases v <;>
        simp [Player.play, hrem, hsock, Player.stop, hstop] <;>
        split <;> simp [hstop]
    · by_cases hrem : isRemote source = true
      · cases l <;> cases v <;>
          simp [Player.play, hrem, hsock, Player.stop, hstop] <;>
          split <;> simp [hstop]
      · cases l <;> cases v <;>
          simp [Player.play, hrem, hfile, hsock, Player.stop, hstop] <;>
          split <;> simp [hstop]

/-- Environment where the socket never appears. -/
def envNoSocket : Env :=
  { procAlive := false, socketAppears := false, posQ := none, durQ := none,
    fileExists := fun _ => false }

/-- C3, witnessed: a remote `play` from the initial state succeeds and stores
the original URI when the socket appears, and fails leaving the state stopped
when it does not. -/
theorem play_socket_outcome_witness :
    ((initialPlayer.play envRemoteOk "rtsp://cam/stream" none none none).2.1
        = PlayOutcome.success ∧
     ((initialPlayer.play envRemoteOk "rtsp://cam/stream" none none none).1).state.status
        = PStatus.playing ∧
     ((initialPlayer.play envRemoteOk "rtsp://cam/stream" none none none).1).state.source
        = some (resolvedSource initialPlayer "rtsp://cam/stream")) ∧
    ((initialPlayer.play envNoSocket "rtsp://cam/stream" none none none).2.1
        = PlayOutcome.socketTimeout ∧
     ((initialPlayer.play envNoSocket "rtsp://cam/stream" none none none).1).state.status
        = PStatus.stopped) :=
  ⟨(play_socket_outcome initialPlayer envRemoteOk "rtsp://cam/stream" none none none
      (Or.inl (by decide))).1 rfl,
   (play_socket_outcome initialPlayer envNoSocket "rtsp://cam/stream" none none none
      (Or.inl (by decide))).2 rfl rfl⟩

/-- The absolute position the restart sequence asks the new process to seek
to: the argument of the first absolute-seek command of a command trace, `0`
when no seek was issued (playback then starts at position `0`). -/
def seekTargetOf (cs : List Cmd) : ℚ :=
  (cs.filterMap fun c => match c with | Cmd.seekAbs q => some q | _ => none).headD 0

/-- C4: for a playing or paused player, `setGeometry` restarts playback and
afterwards the stored source, loop, and volume equal their pre-call values
and the status (playing vs paused) is preserved; the restart seeks exactly to
the pre-restart queried position (the model has no IPC latency, so the
"small tolerance" is zero: the seek target equals the captured position).
Hypotheses: the position query answers, the socket reappears, and the stored
source is a remote URI or an existing absolute local path. -/
theorem setGeometry_restart (p : Player) (env : Env) (x y w h : Int)
    (src : String) (pos : ℚ)
    (hst : p.state.status = PStatus.playing ∨ p.state.status = PStatus.paused)
    (hsrc : p.state.source = some src)
    (hpos : env.posQ = some pos) (hpos0 : 0 ≤ pos)
    (hres : isRemote src = true ∨ (hasPfx "/" src = true ∧ env.fileExists src = true))
    (hsock : env.socketAppears = true) :
    ((p.setGeometry env x y w h).1).state.source = some src ∧
    ((p.setGeometry env x y w h).1).state.loop = p.state.loop ∧
    ((p.setGeometry env x y w h).1).state.volume = p.state.volume ∧
    ((p.setGeometry env x y w h).1).state.status = p.state.status ∧
    seekTargetOf ((p.setGeometry env x y w h).2) = pos := by
  have hresolve :
      (if isRemote src then some src
       else if env.fileExists (pathJoin p.videoDir src) then
         some (pathJoin p.videoDir src) else none) = some src := by
    rcases hres with hrem | ⟨habs, hex⟩
    · simp [hrem]
    · by_cases hrem2 : isRemote src = true
      · simp [hrem2]
      · simp [hrem2, pathJoin, habs, hex]
  have hz : ¬ pos > 0 → pos = 0 := fun hgt => le_antisymm (not_lt.mp hgt) hpos0
  rcases hst with hplay | hpause
  · by_cases hgt : pos > 0
    · simp [Player.setGeometry, Player.play, Player.stop, Player.pause,
        getPlaybackPosition, seekTargetOf, hplay, hsrc, hpos, hsock, hresolve, hgt]
    · simp [Player.setGeometry, Player.play, Player.stop, Player.pause,
        getPlaybackPosition, seekTargetOf, hplay, hsrc, hpos, hsock, hresolve, hgt,
        hz hgt]
  · by_cases hgt : pos > 0
    · simp [Player.setGeometry, Player.play, Player.stop, Player.pause,
        getPlaybackPosition, seekTargetOf, hpause, hsrc, hpos, hsock, hresolve, hgt]
    · simp [Player.setGeometry, Player.play, Player.stop, Player.pause,
        getPlaybackPosition, seekTargetOf, hpause, hsrc, hpos, hsock, hresolve, hgt,
        hz hgt]

/-- Mid-playback player used as concrete instance for the geometry-restart
claim. -/
def geoPlayer : Player :=
  { initialPlayer with
    state := { status := .playing, source := some "rtsp://cam/stream",
               position := 3, duration := 90, volume := 60, loop := false }
    hasProcess := true }

/-- Environment for the geometry-restart instance: position query answers
`7`, the socket reappears. -/
def envGeo : Env :=
  { procAlive := true, socketAppears := true, posQ := some 7, durQ := none,
    fileExists := fun _ => false }

/-- C4, witnessed on a concrete playing player: the restart keeps source,
loop, volume, and status, and seeks to the captured position `7`. -/
theorem setGeometry_restart_witness :
    ((geoPlayer.setGeometry envGeo 10 20 640 360).1).state.source
        = some "rtsp://cam/stream" ∧
    ((geoPlayer.setGeometry envGeo 10 20 640 360).1).state.loop
        = geoPlayer.state.loop ∧
    ((geoPlayer.setGeometry envGeo 10 20 640 360).1).state.volume
        = geoPlayer.state.volume ∧
    ((geoPlayer.setGeometry envGeo 10 20 640 360).1).state.status
        = geoPlayer.state.status ∧
    seekTargetOf ((geoPlayer.setGeometry envGeo 10 20 640 360).2) = 7 :=
  setGeometry_restart geoPlayer envGeo 10 20 640 360 "rtsp://cam/stream" 7
    (Or.inl rfl) rfl rfl (by norm_num) (Or.inl (by decide)) rfl

end VideoPlayer

namespace Watchdog

open VideoPlayer (PStatus hasPfx)

/-- A tick observing a playing monitored stream at position `q`, time `t`,
with the process alive and restarts succeeding. -/
def obsPlaying (t q : ℚ) : Obs :=
  { time := t
    report := some { status := .playing, source := some "rtsp://cam/stream",
                     position := q, loop := true, volume := 50 }
    mpvRunning := true, restartOk := true }

/-- A tick observing the monitored stream reported as stopped at time `t`. -/
def obsStopped (t : ℚ) : Obs :=
  { time := t
    report := some { status := .stopped, source := some "rtsp://cam/stream",
                     position := 0, loop := true, volume := 50 }
    mpvRunning := true, restartOk := true }

/-- The test source is a monitored rtsp stream. -/
theorem rtspCam : isRtspStream (some "rtsp://cam/stream") = true := by decide

/-- Checks that an observation reports the monitored source as stopped. -/
def isStoppedRtspObs (o : Obs) : Bool :=
  match o.report with
  | some r => decide (r.status = PStatus.stopped) && isRtspStream r.source
  | none => false

/-- The run falsifying the three-consecutive-stops claim: a stop is absorbed
into `consecutive_failures`, a later playing tick at an unchanged position
does not reset the counter, and the three consecutive stopped observations
that follow then issue two restarts instead of one. -/
def cexRun : List Obs :=
  [obsPlaying 5 5, obsStopped 10, obsPlaying 15 5,
   obsStopped 20, obsStopped 25, obsStopped 30]

/-- C5 counterexample: starting the watchdog from its initial state and
feeding `cexRun`, the last three observations are three consecutive
`stopped` observations of the monitored source, `restartAttempts` is below
the cap before each of them, every issued restart succeeds — yet two restart
commands are issued across those three observations, not exactly one
(`consecutive_failures` entered them at 1, surviving the playing tick whose
position had not changed). -/
theorem watchdog_three_stopped_cex :
    ((cexRun.drop 3).all isStoppedRtspObs = true) ∧
    (wrun initialWState (cexRun.take 3)).restartAttempts < MAX_RESTART_ATTEMPTS ∧
    (wrun initialWState (cexRun.take 4)).restartAttempts < MAX_RESTART_ATTEMPTS ∧
    (wrun initialWState (cexRun.take 5)).restartAttempts < MAX_RESTART_ATTEMPTS ∧
    restartCount ((wtrace initialWState cexRun).drop 3) = 2 := by
  have h1 : wstep initialWState (obsPlaying 5 5) =
      ({ lastSource := some "rtsp://cam/stream", lastLoop := true, lastVolume := 50,
         lastPosition := some 5, lastPositionTime := some 5,
         consecutiveFailures := 0, restartAttempts := 0,
         inBackoff := false, backoffUntil := none }, none) := by
    norm_num [wstep, wstepMain, checkFailure, restartBlock, backoffActive,
      initialWState, obsPlaying, rtspCam, FREEZE_THRESHOLD] <;> decide
  have h2 : wstep
      { lastSource := some "rtsp://cam/stream", lastLoop := true, lastVolume := 50,
        lastPosition := some 5, lastPositionTime := some 5,
        consecutiveFailures := 0, restartAttempts := 0,
        inBackoff := false, backoffUntil := none } (obsStopped 10) =
      ({ lastSource := some "rtsp://cam/stream", lastLoop := true, lastVolume := 50,
         lastPosition := some 5, lastPositionTime := some 5,
         consecutiveFailures := 1, restartAttempts := 0,
         inBackoff := false, backoffUntil := none }, none) := by
    norm_num [wstep, wstepMain, checkFailure, restartBlock, backoffActive,
      obsStopped, rtspCam] <;> decide
  have h3 : wstep
      { lastSource := some "rtsp://cam/stream", lastLoop := true, lastVolume := 50,
        lastPosition := some 5, lastPositionTime := some 5,
        consecutiveFailures := 1, restartAttempts := 0,
        inBackoff := false, backoffUntil := none } (obsPlaying 15 5) =
      ({ lastSource := some "rtsp://cam/stream", lastLoop := true, lastVolume := 50,
         lastPosition := some 5, lastPositionTime := some 5,
         consecutiveFailures := 1, restartAttempts := 0,
         inBackoff := false, backoffUntil := none }, none) := by
    norm_num [wstep, wstepMain, checkFailure, restartBlock, backoffActive,
      obsPlaying, rtspCam, FREEZE_THRESHOLD] <;> decide
  have h4 : wstep
      { lastSource := some "rtsp://cam/stream", lastLoop := true, lastVolume := 50,
        lastPosition := some 5, lastPositionTime := some 5,
        consecutiveFailures := 1, restartAttempts := 0,
        inBackoff := false, backoffUntil := none } (obsStopped 20) =
      ({ lastSource := some "rtsp://cam/stream", lastLoop := true, lastVolume := 50,
         lastPosition := none, lastPositionTime := none,
         consecutiveFailures := 0, restartAttempts := 1,
         inBackoff := false, backoffUntil := none }, some Reason.stoppedStream) := by
    norm_num [wstep, wstepMain, checkFailure, restartBlock, backoffActive,
      obsStopped, rtspCam, MAX_RESTART_ATTEMPTS] <;> decide
  have h5 : wstep
      { lastSource := some "rtsp://cam/stream", lastLoop := true, lastVolume := 50,
        lastPosition := none, lastPositionTime := none,
        consecutiveFailures := 0, restartAttempts := 1,
        inBackoff := false, backoffUntil := none } (obsStopped 25) =
      ({ lastSource := some "rtsp://cam/stream", lastLoop := true, lastVolume := 50,
         lastPosition := none, lastPositionTime := none,
         consecutiveFailures := 1, restartAttempts := 0,
         inBackoff := false, backoffUntil := none }, none) := by
    norm_num [wstep, wstepMain, checkFailure, restartBlock, backoffActive,
      obsStopped, rtspCam] <;> decide
  have h6 : wstep
      { lastSource := some "rtsp://cam/stream", lastLoop := true, lastVolume := 50,
        lastPosition := none, lastPositionTime := none,
        consecutiveFailures := 1, restartAttempts := 0,
        inBackoff := false, backoffUntil := none } (obsStopped 30) =
      ({ lastSource := some "rtsp://cam/stream", lastLoop := true, lastVolume := 50,
         lastPosition := none, lastPositionTime := none,
         consecutiveFailures := 0, restartAttempts := 1,
         inBackoff := false, backoffUntil := none }, some Reason.stoppedStream) := by
    norm_num [wstep, wstepMain, checkFailure, restartBlock, backoffActive,
      obsStopped, rtspCam, MAX_RESTART_ATTEMPTS] <;> decide
  refine ⟨by decide, ?_, ?_, ?_, ?_⟩ <;>
    simp [cexRun, wtrace, wrun, h1, h2, h3, h4, h5, h6, restartCount,
      MAX_RESTART_ATTEMPTS]

/-- C5 amended: when the three consecutive `stopped` observations of a
monitored source start from a watchdog state with no accumulated failure
count and no active backoff, and the issued restart command succeeds,
exactly one restart is issued across the three observations (at the second
one), and `consecutiveFailures` is 0 after the next `playing` observation
of the monitored source (the position necessarily differs from the cleared
tracking value, so the reset branch runs). -/
theorem watchdog_three_stopped_amended (s : WState) (o1 o2 o3 o4 : Obs)
    (r1 r2 r3 r4 : Report)
    (hb : s.inBackoff = false) (hcf : s.consecutiveFailures = 0)
    (h1 : o1.report = some r1) (h1s : r1.status = PStatus.stopped)
    (h1r : isRtspStream r1.source = true)
    (h2 : o2.report = some r2) (h2s : r2.status = PStatus.stopped)
    (h2r : isRtspStream r2.source = true) (h2ok : o2.restartOk = true)
    (h3 : o3.report = some r3) (h3s : r3.status = PStatus.stopped)
    (h3r : isRtspStream r3.source = true)
    (h4 : o4.report = some r4) (h4s : r4.status = PStatus.playing)
    (h4r : isRtspStream r4.source = true) (h4m : o4.mpvRunning = true) :
    wtrace s [o1, o2, o3] = [none, some Reason.stoppedStream, none] ∧
    (wrun s [o1, o2, o3, o4]).consecutiveFailures = 0 := by
  have e1 : wstep s o1 =
      ({ s with lastSource := r1.source, lastLoop := r1.loop, lastVolume := r1.volume,
                consecutiveFailures := 1, restartAttempts := 0 }, none) := by
    by_cases ha : 0 < s.restartAttempts
    · norm_num [wstep, backoffActive, hb, wstepMain, h1, h1r, checkFailure, h1s,
        hcf, ha]
    · have ha0 : s.restartAttempts = 0 := by omega
      norm_num [wstep, backoffActive, hb, wstepMain, h1, h1r, checkFailure, h1s,
        hcf, ha, ha0]
  have e2 : wstep
      { s with lastSource := r1.source, lastLoop := r1.loop, lastVolume := r1.volume,
               consecutiveFailures := 1, restartAttempts := 0 } o2 =
      ({ s with lastSource := r2.source, lastLoop := r2.loop, lastVolume := r2.volume,
                lastPosition := none, lastPositionTime := none,
                consecutiveFailures := 0, restartAttempts := 1 },
       some Reason.stoppedStream) := by
    norm_num [wstep, backoffActive, hb, wstepMain, h2, h2r, checkFailure, h2s,
      restartBlock, MAX_RESTART_ATTEMPTS, h2ok]
  have e3 : wstep
      { s with lastSource := r2.source, lastLoop := r2.loop, lastVolume := r2.volume,
               lastPosition := none, lastPositionTime := none,
               consecutiveFailures := 0, restartAttempts := 1 } o3 =
      ({ s with lastSource := r3.source, lastLoop := r3.loop, lastVolume := r3.volume,
                lastPosition := none, lastPositionTime := none,
                consecutiveFailures := 1, restartAttempts := 0 }, none) := by
    norm_num [wstep, backoffActive, hb, wstepMain, h3, h3r, checkFailure, h3s]
  have e4 : (wstep
      { s with lastSource := r3.source, lastLoop := r3.loop, lastVolume := r3.volume,
               lastPosition := none, lastPositionTime := none,
               consecutiveFailures := 1, restartAttempts := 0 } o4).1.consecutiveFailures
      = 0 := by
    norm_num [wstep, backoffActive, hb, wstepMain, h4, h4r, checkFailure, h4s, h4m]
    simp
  exact ⟨by simp [wtrace, e1, e2, e3], by simp [wrun, e1, e2, e3, e4]⟩

/-- C5 amended claim, witnessed on a concrete run: three consecutive stopped
observations from the initial watchdog state issue exactly one restart, and
the failure counter is 0 after the following playing observation. -/
theorem watchdog_three_stopped_amended_witness :
    wtrace initialWState [obsStopped 10, obsStopped 15, obsStopped 20]
      = [none, some Reason.stoppedStream, none] ∧
    (wrun initialWState
      [obsStopped 10, obsStopped 15, obsStopped 20, obsPlaying 25 3]).consecutiveFailures
      = 0 :=
  watchdog_three_stopped_amended initialWState
    (obsStopped 10) (obsStopped 15) (obsStopped 20) (obsPlaying 25 3)
    _ _ _ _ rfl rfl rfl rfl (by decide) rfl rfl (by decide) rfl rfl rfl
    (by decide) rfl rfl (by decide) rfl

/-- A tick observing a given monitored source playing at position `q`, time
`t`, process alive, restarts succeeding. -/
def obsAt (src : Option String) (lp : Bool) (vol : Int) (q t : ℚ) : Obs :=
  { time := t
    report := some { status := .playing, source := src, position := q,
                     loop := lp, volume := vol }
    mpvRunning := true, restartOk := true }

/-- C6: freeze detection.  First part: a monitored playing source whose
reported position never changes, observed first at time `t0`, at intermediate
ticks less than `FREEZE_THRESHOLD` seconds after `t0`, and finally at a tick
at least `FREEZE_THRESHOLD` seconds after `t0`, triggers exactly one restart,
with reason frozen, at that final tick — and the freeze tracking is cleared
by it, so no further frozen restart can fire before the threshold elapses
again.  Second part: a recorded position `120.0` followed one second later by
`120.3` triggers nothing (the `0.3 ≥ 0.1` change instead resets the
freeze-tracking position/timestamp pair).  The claim instantiates the first
part with the constant position `120.0`. -/
theorem watchdog_freeze_detection (src : Option String) (lp : Bool) (vol : Int)
    (q t0 tlast : ℚ) (ts : List ℚ) (s : WState)
    (hr : isRtspStream src = true) (hb : s.inBackoff = false)
    (hlp : s.lastPosition = none)
    (hmid : ∀ t ∈ ts, t - t0 < FREEZE_THRESHOLD)
    (hlast : tlast - t0 ≥ FREEZE_THRESHOLD) :
    (wtrace s (obsAt src lp vol q t0 ::
        (ts.map (obsAt src lp vol q) ++ [obsAt src lp vol q tlast]))
      = none :: (ts.map (fun _ => none) ++ [some Reason.frozen]) ∧
     (wrun s (obsAt src lp vol q t0 ::
        (ts.map (obsAt src lp vol q) ++ [obsAt src lp vol q tlast]))).lastPosition
      = none) ∧
    (∀ s2 t1, s2.inBackoff = false → s2.lastPosition = some 120 →
      s2.lastPositionTime = some t1 →
      (wstep s2 (obsAt src lp vol (120.3) (t1 + 1))).2 = none ∧
      (wstep s2 (obsAt src lp vol (120.3) (t1 + 1))).1.lastPosition = some (120.3) ∧
      (wstep s2 (obsAt src lp vol (120.3) (t1 + 1))).1.lastPositionTime
        = some (t1 + 1)) := by
  have e1 : wstep s (obsAt src lp vol q t0) =
      ({ s with lastSource := src, lastLoop := lp, lastVolume := vol,
                lastPosition := some q, lastPositionTime := some t0,
                consecutiveFailures := 0, restartAttempts := 0 }, none) := by
    by_cases ha : 0 < s.restartAttempts
    · norm_num [wstep, backoffActive, hb, wstepMain, obsAt, hr, checkFailure,
        hlp, ha]
      simp
    · have ha0 : s.restartAttempts = 0 := by omega
      norm_num [wstep, backoffActive, hb, wstepMain, obsAt, hr, checkFailure,
        hlp, ha, ha0]
      simp
  have emid : ∀ t, t - t0 < FREEZE_THRESHOLD →
      wstep { s with lastSource := src, lastLoop := lp, lastVolume := vol,
                     lastPosition := some q, lastPositionTime := some t0,
                     consecutiveFailures := 0, restartAttempts := 0 }
        (obsAt src lp vol q t) =
      ({ s with lastSource := src, lastLoop := lp, lastVolume := vol,
                lastPosition := some q, lastPositionTime := some t0,
                consecutiveFailures := 0, restartAttempts := 0 }, none) := by
    intro t ht
    norm_num [wstep, backoffActive, hb, wstepMain, obsAt, hr, checkFailure,
      not_le.mpr ht]
  have elast : wstep { s with lastSource := src, lastLoop := lp, lastVolume := vol,
                              lastPosition := some q, lastPositionTime := some t0,
                              consecutiveFailures := 0, restartAttempts := 0 }
        (obsAt src lp vol q tlast) =
      ({ s with lastSource := src, lastLoop := lp, lastVolume := vol,
                lastPosition := none, lastPositionTime := none,
                consecutiveFailures := 0, restartAttempts := 1 },
       some Reason.frozen) := by
    norm_num [wstep, backoffActive, hb, wstepMain, obsAt, hr, checkFailure,
      hlast, restartBlock, MAX_RESTART_ATTEMPTS]
  have htr : ∀ l : List ℚ, (∀ t ∈ l, t - t0 < FREEZE_THRESHOLD) →
      wtrace { s with lastSource := src, lastLoop := lp, lastVolume := vol,
                      lastPosition := some q, lastPositionTime := some t0,
                      consecutiveFailures := 0, restartAttempts := 0 }
          (l.map (obsAt src lp vol q) ++ [obsAt src lp vol q tlast])
        = l.map (fun _ => none) ++ [some Reason.frozen] ∧
      wrun { s with lastSource := src, lastLoop := lp, lastVolume := vol,
                    lastPosition := some q, lastPositionTime := some t0,
                    consecutiveFailures := 0, restartAttempts := 0 }
          (l.map (obsAt src lp vol q) ++ [obsAt src lp vol q tlast])
        = { s with lastSource := src, lastLoop := lp, lastVolume := vol,
                   lastPosition := none, lastPositionTime := none,
                   consecutiveFailures := 0, restartAttempts := 1 } := by
    intro l
    induction l with
    | nil => intro _; simp [wtrace, wrun, elast]
    | cons t l ih =>
      intro hl
      have h1 := emid t (hl t (List.mem_cons_self t l))
      have h2 := ih (fun u hu => hl u (List.mem_cons_of_mem t hu))
      simp [wtrace, wrun, h1, h2.1, h2.2]
  constructor
  · have h := htr ts hmid
    constructor
    · simp [wtrace, e1, h.1]
    · simp [wrun, e1, h.2]
  · intro s2 t1 hb2 hl2 ht2
    refine ⟨?_, ?_, ?_⟩ <;>
      (by_cases ha : 0 < s2.restartAttempts <;>
        norm_num [wstep, backoffActive, hb2, wstepMain, obsAt, hr, checkFailure,
          hl2, ht2, ha, FREEZE_THRESHOLD])

/-- C6, witnessed: the monitored stream reports position `120.0` at times
`100, 105, 110, 115`; the tick at `115` (15 seconds without progress) issues
the single frozen restart.  And from a recorded pair `(120.0, 100)`, the
observation `120.3` at time `101` issues nothing. -/
theorem watchdog_freeze_detection_witness :
    wtrace initialWState (obsAt (some "rtsp://cam/stream") true 50 120 100 ::
        (([105, 110] : List ℚ).map (obsAt (some "rtsp://cam/stream") true 50 120) ++
         [obsAt (some "rtsp://cam/stream") true 50 120 115]))
      = none :: (([105, 110] : List ℚ).map (fun _ => none) ++ [some Reason.frozen]) ∧
    (wstep { initialWState with lastPosition := some 120, lastPositionTime := some 100 }
        (obsAt (some "rtsp://cam/stream") true 50 (120.3) (100 + 1))).2 = none :=
  have h := watchdog_freeze_detection (some "rtsp://cam/stream") true 50 120 100 115
    [105, 110] initialWState (by decide) rfl rfl
    (by
      intro t ht
      simp only [List.mem_cons, List.not_mem_nil, or_false] at ht
      rcases ht with rfl | rfl <;> norm_num [FREEZE_THRESHOLD])
    (by norm_num [FREEZE_THRESHOLD])
  ⟨h.1.1, (h.2 { initialWState with lastPosition := some 120, lastPositionTime := some 100 }
      100 rfl rfl rfl).1⟩

/-- The failure-classification block never touches the restart-attempt
counter or the backoff fields. -/
theorem checkFailure_misc (s : WState) (now : ℚ) (r : Report) (m : Bool) :
    (checkFailure s now r m).1.restartAttempts = s.restartAttempts ∧
    (checkFailure s now r m).1.inBackoff = s.inBackoff ∧
    (checkFailure s now r m).1.backoffUntil = s.backoffUntil := by
  unfold checkFailure
  cases r.status <;> cases m <;> simp <;> split <;> simp

/-- A tick inside an active backoff window does nothing. -/
theorem backoff_sleep (b : WState) (o2 : Obs) (u : ℚ) (hib : b.inBackoff = true)
    (hbu : b.backoffUntil = some u) (hu : u ≠ 0) (ht : o2.time < u) :
    wstep b o2 = (b, none) := by
  simp [wstep, backoffActive, hib, hbu, hu, ht]

/-- A whole run of ticks inside an active backoff window does nothing. -/
theorem backoff_trace (os : List Obs) : ∀ (b : WState) (u : ℚ),
    b.inBackoff = true → b.backoffUntil = some u → u ≠ 0 →
    (∀ o2 ∈ os, o2.time < u) →
    wtrace b os = os.map (fun _ => none) ∧ wrun b os = b := by
  induction os with
  | nil => intro b u _ _ _ _; exact ⟨rfl, rfl⟩
  | cons o os ih =>
    intro b u hib hbu hu hall
    have h1 := backoff_sleep b o u hib hbu hu (hall o (List.mem_cons_self o os))
    have h2 := ih b u hib hbu hu (fun x hx => hall x (List.mem_cons_of_mem _ hx))
    simp [wtrace, wrun, h1, h2.1, h2.2]

/-- The first tick at or after the end of the backoff window clears the
backoff flag, zeroes the attempt counter, and runs the normal loop body. -/
theorem backoff_resume (b : WState) (o2 : Obs) (u : ℚ) (hib : b.inBackoff = true)
    (hbu : b.backoffUntil = some u) (hu : u ≠ 0) (ht : ¬ o2.time < u) :
    wstep b o2 = wstepMain { b with inBackoff := false, restartAttempts := 0 } o2 := by
  simp [wstep, backoffActive, hib, hbu, hu, ht]

/-- C7: when a restart is triggered while `restartAttempts` is at the cap
(3), no restart command is issued on that tick; the watchdog enters backoff
until `current_time + 60` with `restartAttempts` reset to 0; every tick
inside that window issues no restart and leaves the session state untouched;
and on the first tick past the window the watchdog clears the backoff flag
and runs the loop body normally with `restartAttempts = 0`. -/
theorem watchdog_backoff (s : WState) (o : Obs) (r : Report) (reason : Reason)
    (os : List Obs)
    (hb : s.inBackoff = false) (hcap : s.restartAttempts = MAX_RESTART_ATTEMPTS)
    (h1 : o.report = some r) (hr : isRtspStream r.source = true)
    (htrig : (checkFailure
        { s with lastSource := r.source, lastLoop := r.loop, lastVolume := r.volume }
        o.time r o.mpvRunning).2 = some reason)
    (ht0 : 0 ≤ o.time)
    (hwin : ∀ o2 ∈ os, o2.time < o.time + BACKOFF_TIME) :
    (wstep s o).2 = none ∧
    (wstep s o).1.inBackoff = true ∧
    (wstep s o).1.restartAttempts = 0 ∧
    (wstep s o).1.backoffUntil = some (o.time + BACKOFF_TIME) ∧
    wtrace (wstep s o).1 os = os.map (fun _ => none) ∧
    wrun (wstep s o).1 os = (wstep s o).1 ∧
    (∀ o2, o.time + BACKOFF_TIME ≤ o2.time →
      wstep (wrun (wstep s o).1 os) o2
        = wstepMain
            { (wrun (wstep s o).1 os) with inBackoff := false, restartAttempts := 0 }
            o2) := by
  obtain ⟨⟨c1, c2⟩, hc⟩ : ∃ c : WState × Option Reason,
      checkFailure
        { s with lastSource := r.source, lastLoop := r.loop, lastVolume := r.volume }
        o.time r o.mpvRunning = c := ⟨_, rfl⟩
  have hm := checkFailure_misc
    { s with lastSource := r.source, lastLoop := r.loop, lastVolume := r.volume }
    o.time r o.mpvRunning
  rw [hc] at hm htrig
  simp only at hm htrig
  subst htrig
  have hm1 : c1.restartAttempts = MAX_RESTART_ATTEMPTS := by
    simpa [hcap] using hm.1
  have e0 : wstep s o =
      ({ c1 with
          inBackoff := true
          backoffUntil := some (o.time + BACKOFF_TIME)
          restartAttempts := 0 }, none) := by
    have hstep : wstep s o = wstepMain s o := by simp [wstep, backoffActive, hb]
    rw [hstep]
    simp [wstepMain, h1, hr, hc, restartBlock, hm1]
  have hne : o.time + BACKOFF_TIME ≠ 0 := by
    simp only [BACKOFF_TIME]
    intro hc
    have : (0:ℚ) < o.time + 60 := by linarith
    exact absurd hc (ne_of_gt this)
  have hib : (wstep s o).1.inBackoff = true := by simp [e0]
  have hbu : (wstep s o).1.backoffUntil = some (o.time + BACKOFF_TIME) := by simp [e0]
  have htrc := backoff_trace os (wstep s o).1 (o.time + BACKOFF_TIME) hib hbu hne hwin
  refine ⟨by simp [e0], hib, by simp [e0], hbu, htrc.1, htrc.2, ?_⟩
  intro o2 h2
  rw [htrc.2]
  exact backoff_resume _ o2 (o.time + BACKOFF_TIME) hib hbu hne (not_lt.mpr h2)

/-- A watchdog state that has already used all three restart attempts and
carries one accumulated failure. -/
def backoffState : WState :=
  { initialWState with consecutiveFailures := 1, restartAttempts := 3 }

/-- C7, witnessed: a trigger at time 100 with the attempt counter at the cap
enters backoff without issuing a restart; ticks at 120 and 150 do nothing;
the tick at 161 (past 100 + 60) runs the loop body again from a state with
the backoff flag cleared and zero attempts. -/
theorem watchdog_backoff_witness :
    (wstep backoffState (obsStopped 100)).2 = none ∧
    (wstep backoffState (obsStopped 100)).1.inBackoff = true ∧
    (wstep backoffState (obsStopped 100)).1.restartAttempts = 0 ∧
    wtrace (wstep backoffState (obsStopped 100)).1 [obsStopped 120, obsStopped 150]
      = [none, none] ∧
    wstep (wrun (wstep backoffState (obsStopped 100)).1 [obsStopped 120, obsStopped 150]) (obsStopped 161)
      = wstepMain { (wrun (wstep backoffState (obsStopped 100)).1 [obsStopped 120, obsStopped 150]) with inBackoff := false, restartAttempts := 0 } (obsStopped 161) := by
  have h := watchdog_backoff backoffState (obsStopped 100)
    { status := .stopped, source := some "rtsp://cam/stream", position := 0,
      loop := true, volume := 50 }
    Reason.stoppedStream [obsStopped 120, obsStopped 150]
    rfl rfl rfl (by decide) (by decide) (by norm_num [obsStopped])
    (by
      intro o2 ho
      simp only [List.mem_cons, List.not_mem_nil, or_false] at ho
      rcases ho with rfl | rfl <;> norm_num [obsStopped, BACKOFF_TIME])
  exact ⟨h.1, h.2.1, h.2.2.1, h.2.2.2.2.1,
    h.2.2.2.2.2.2 (obsStopped 161) (by norm_num [obsStopped, BACKOFF_TIME])⟩

/-- Checks that an observation reports the monitored source as playing. -/
def isPlayingMonitoredObs (o : Obs) : Bool :=
  match o.report with
  | some r => decide (r.status = PStatus.playing) && isRtspStream r.source
  | none => false

/-- The restart block either issues the classified reason or (entering
backoff) issues nothing. -/
theorem restartBlock_snd (s : WState) (now : ℚ) (ok : Bool) (reason : Reason) :
    (restartBlock s now ok reason).2 = none ∨
    (restartBlock s now ok reason).2 = some reason := by
  unfold restartBlock
  split_ifs <;> simp

/-- The restart block keeps the tracked position or clears it. -/
theorem restartBlock_lastPosition (s : WState) (now : ℚ) (ok : Bool) (reason : Reason) :
    (restartBlock s now ok reason).1.lastPosition = s.lastPosition ∨
    (restartBlock s now ok reason).1.lastPosition = none := by
  unfold restartBlock
  split_ifs <;> simp

/-- Classification for a non-playing report never touches the tracked
position. -/
theorem checkFailure_lastPosition_nonplaying (s : WState) (now : ℚ) (r : Report)
    (m : Bool) (h : r.status ≠ PStatus.playing) :
    (checkFailure s now r m).1.lastPosition = s.lastPosition := by
  unfold checkFailure
  cases hst : r.status <;> simp_all

/-- Inversion for the loop body: a frozen restart can only be issued on a
playing, monitored, process-alive observation whose position differs from
the tracked one by less than the 0.1 epsilon after at least
`FREEZE_THRESHOLD` seconds without progress. -/
theorem wstepMain_frozen_inv (s : WState) (o : Obs)
    (hf : (wstepMain s o).2 = some Reason.frozen) :
    ∃ r lp lpt, o.report = some r ∧ r.status = PStatus.playing ∧
      isRtspStream r.source = true ∧ o.mpvRunning = true ∧
      s.lastPosition = some lp ∧ s.lastPositionTime = some lpt ∧
      |r.position - lp| < 1/10 ∧ o.time - lpt ≥ FREEZE_THRESHOLD := by
  rcases ho : o.report with _ | r
  · simp [wstepMain, ho] at hf
  by_cases hmon : isRtspStream r.source = true
  · cases hst : r.status
    · by_cases hc2 : s.consecutiveFailures + 1 ≥ 2
      · simp [wstepMain, ho, hmon, checkFailure, hst, hc2] at hf
        rcases restartBlock_snd
            { s with lastSource := r.source, lastLoop := r.loop, lastVolume := r.volume,
                     consecutiveFailures := s.consecutiveFailures + 1 }
            o.time o.restartOk Reason.stoppedStream with hn | hn <;>
          rw [hn] at hf <;> simp at hf
      · simp [wstepMain, ho, hmon, checkFailure, hst, hc2] at hf
    · by_cases hm2 : o.mpvRunning = true
      · rcases hlp : s.lastPosition with _ | lp
        · simp [wstepMain, ho, hmon, checkFailure, hst, hm2, hlp] at hf
        rcases hlpt : s.lastPositionTime with _ | lpt
        · simp [wstepMain, ho, hmon, checkFailure, hst, hm2, hlp, hlpt] at hf
        by_cases hd : |r.position - lp| < 1/10
        · by_cases htd : o.time - lpt ≥ FREEZE_THRESHOLD
          · exact ⟨r, lp, lpt, rfl, hst, hmon, hm2, rfl, rfl, hd, htd⟩
          · simp [wstepMain, ho, hmon, checkFailure, hst, hm2, hlp, hlpt, htd] at hf
        · have hd2 : ¬ |r.position - lp| < (10:ℚ)⁻¹ := by rwa [one_div] at hd
          simp [wstepMain, ho, hmon, checkFailure, hst, hm2, hlp, hlpt, hd2] at hf
      · have hm3 : o.mpvRunning = false := by simpa using hm2
        simp [wstepMain, ho, hmon, checkFailure, hst, hm3] at hf
        rcases restartBlock_snd
            { s with lastSource := r.source, lastLoop := r.loop, lastVolume := r.volume }
            o.time o.restartOk Reason.processDied with hn | hn <;>
          rw [hn] at hf <;> simp at hf
    · simp [wstepMain, ho, hmon, checkFailure, hst] at hf
  · simp [wstepMain, ho, hmon] at hf

/-- Inversion lifted to the full step (backoff-gated ticks issue nothing,
and the gate does not touch the freeze tracking). -/
theorem wstep_frozen_inv (s : WState) (o : Obs)
    (hf : (wstep s o).2 = some Reason.frozen) :
    ∃ r lp lpt, o.report = some r ∧ r.status = PStatus.playing ∧
      isRtspStream r.source = true ∧ o.mpvRunning = true ∧
      s.lastPosition = some lp ∧ s.lastPositionTime = some lpt ∧
      |r.position - lp| < 1/10 ∧ o.time - lpt ≥ FREEZE_THRESHOLD := by
  unfold wstep at hf
  by_cases hba : backoffActive s = true
  · rw [if_pos hba] at hf
    by_cases hlt : o.time < s.backoffUntil.getD 0
    · rw [if_pos hlt] at hf
      simp at hf
    · rw [if_neg hlt] at hf
      have h := wstepMain_frozen_inv _ o hf
      simpa using h
  · rw [if_neg hba] at hf
    exact wstepMain_frozen_inv s o hf

/-- An observation that is not a playing observation of a monitored source
cannot start freeze tracking: cleared tracking stays cleared (loop body
version). -/
theorem wstepMain_keeps_none (s : WState) (o : Obs) (h0 : s.lastPosition = none)
    (hnp : isPlayingMonitoredObs o = false) :
    (wstepMain s o).1.lastPosition = none := by
  rcases ho : o.report with _ | r
  · simp [wstepMain, ho, h0]
  by_cases hmon : isRtspStream r.source = true
  · have hst : r.status ≠ PStatus.playing := by
      simp [isPlayingMonitoredObs, ho, hmon] at hnp
      exact hnp
    obtain ⟨⟨c1, c2⟩, hc⟩ : ∃ c : WState × Option Reason,
        checkFailure
          { s with lastSource := r.source, lastLoop := r.loop, lastVolume := r.volume }
          o.time r o.mpvRunning = c := ⟨_, rfl⟩
    have hl1 : c1.lastPosition = none := by
      have h := checkFailure_lastPosition_nonplaying
        { s with lastSource := r.source, lastLoop := r.loop, lastVolume := r.volume }
        o.time r o.mpvRunning hst
      rw [hc] at h
      simpa [h0] using h
    rcases c2 with _ | reason
    · by_cases ha : 0 < c1.restartAttempts <;>
        simp [wstepMain, ho, hmon, hc, ha, hl1]
    · rcases restartBlock_lastPosition c1 o.time o.restartOk reason with h | h <;>
        simp [wstepMain, ho, hmon, hc, h, hl1]
  · simp [wstepMain, ho, hmon]

/-- An observation that is not a playing observation of a monitored source
cannot start freeze tracking (full step version). -/
theorem wstep_keeps_none (s : WState) (o : Obs) (h0 : s.lastPosition = none)
    (hnp : isPlayingMonitoredObs o = false) :
    (wstep s o).1.lastPosition = none := by
  unfold wstep
  by_cases hba : backoffActive s = true
  · by_cases hlt : o.time < s.backoffUntil.getD 0
    · simp [hba, hlt, h0]
    · rw [if_pos hba, if_neg hlt]
      exact wstepMain_keeps_none _ o (by simpa using h0) hnp
  · rw [if_neg hba]
    exact wstepMain_keeps_none s o h0 hnp

/-- A frozen restart at index `k` of a run needs at least one playing
monitored observation among the first `k + 1`. -/
theorem wtrace_frozen_one (os : List Obs) : ∀ (s : WState) (k : Nat),
    (wtrace s os).get? k = some (some Reason.frozen) →
    1 ≤ (os.take (k+1)).countP isPlayingMonitoredObs := by
  induction os with
  | nil => intro s k h; simp [wtrace] at h
  | cons o os ih =>
    intro s k h
    cases k with
    | zero =>
      simp only [wtrace, List.get?_cons_zero, Option.some.injEq] at h
      obtain ⟨r, lp, lpt, hrep, hst, hmon, -⟩ := wstep_frozen_inv s o h
      simp [List.countP_cons, isPlayingMonitoredObs, hrep, hst, hmon]
    | succ k =>
      simp only [wtrace, List.get?_cons_succ] at h
      have h1 := ih (wstep s o).1 k h
      rw [List.take_succ_cons, List.countP_cons]
      exact le_trans h1 (Nat.le_add_right _ _)

/-- C10 part three as a standalone lemma: starting with cleared freeze
tracking, a frozen restart at index `k` needs at least two playing monitored
observations among the first `k + 1` (one to set the tracked pair, one to
compare against it). -/
theorem wtrace_frozen_two (os : List Obs) : ∀ (s : WState) (k : Nat),
    s.lastPosition = none →
    (wtrace s os).get? k = some (some Reason.frozen) →
    2 ≤ (os.take (k+1)).countP isPlayingMonitoredObs := by
  induction os with
  | nil => intro s k _ h; simp [wtrace] at h
  | cons o os ih =>
    intro s k h0 h
    cases k with
    | zero =>
      simp only [wtrace, List.get?_cons_zero, Option.some.injEq] at h
      obtain ⟨r, lp, lpt, hrep, hst, hmon, hmpv, hlp, -⟩ := wstep_frozen_inv s o h
      rw [h0] at hlp
      exact absurd hlp (by simp)
    | succ k =>
      simp only [wtrace, List.get?_cons_succ] at h
      by_cases hp : isPlayingMonitoredObs o = true
      · have h1 := wtrace_frozen_one os (wstep s o).1 k h
        have hone : (if isPlayingMonitoredObs o then 1 else 0) = 1 := by simp [hp]
        rw [List.take_succ_cons, List.countP_cons, hone]
        omega
      · have hkeep := wstep_keeps_none s o h0 (by simpa using hp)
        have h2 := ih (wstep s o).1 k hkeep h
        have hzero : (if isPlayingMonitoredObs o then 1 else 0) = 0 := by simp [hp]
        rw [List.take_succ_cons, List.countP_cons, hzero]
        omega

/-- Loop-body effect of a monitored playing observation whose position
differs from the tracked one (any change, increases and decreases alike):
the failure counter is reset to 0, and the freeze-tracking pair is updated
to the observed position and time — except that when this very tick also
issues a frozen restart (possible only for a change smaller than the 0.1
epsilon) that succeeds, the pair is cleared instead. -/
theorem wstepMain_position_change (s : WState) (o : Obs) (r : Report)
    (h1 : o.report = some r) (hr : isRtspStream r.source = true)
    (hst : r.status = PStatus.playing) (hmpv : o.mpvRunning = true)
    (hch : s.lastPosition ≠ some r.position) :
    (wstepMain s o).1.consecutiveFailures = 0 ∧
    (((wstepMain s o).1.lastPosition = some r.position ∧
      (wstepMain s o).1.lastPositionTime = some o.time) ∨
     ((wstepMain s o).2 = some Reason.frozen ∧
      (wstepMain s o).1.lastPosition = none)) := by
  rcases hlp : s.lastPosition with _ | lp
  · by_cases ha : 0 < s.restartAttempts <;>
      simp [wstepMain, h1, hr, checkFailure, hst, hmpv, hlp, ha]
  · have hne : ¬ (lp = r.position) := by
      rw [hlp] at hch
      simpa using hch
    rcases hlpt : s.lastPositionTime with _ | lpt
    · by_cases ha : 0 < s.restartAttempts <;>
        simp [wstepMain, h1, hr, checkFailure, hst, hmpv, hlp, hlpt, hne, ha]
    · by_cases hd : |r.position - lp| < 1/10
      · have hd2 : |r.position - lp| < (10:ℚ)⁻¹ := by rwa [one_div] at hd
        by_cases htd : o.time - lpt ≥ FREEZE_THRESHOLD
        · by_cases hcap2 : s.restartAttempts ≥ MAX_RESTART_ATTEMPTS
          · simp [wstepMain, h1, hr, checkFailure, hst, hmpv, hlp, hlpt, hne, hd, hd2,
              htd, restartBlock, hcap2]
          · by_cases hok : o.restartOk = true
            · simp [wstepMain, h1, hr, checkFailure, hst, hmpv, hlp, hlpt, hne, hd, hd2,
                htd, restartBlock, hcap2, hok]
            · have hok2 : o.restartOk = false := by simpa using hok
              simp [wstepMain, h1, hr, checkFailure, hst, hmpv, hlp, hlpt, hne, hd, hd2,
                htd, restartBlock, hcap2, hok2]
        · by_cases ha : 0 < s.restartAttempts <;>
            simp [wstepMain, h1, hr, checkFailure, hst, hmpv, hlp, hlpt, hne, htd, ha]
      · have hd2 : ¬ |r.position - lp| < (10:ℚ)⁻¹ := by rwa [one_div] at hd
        by_cases ha : 0 < s.restartAttempts <;>
          simp [wstepMain, h1, hr, checkFailure, hst, hmpv, hlp, hlpt, hne, hd2, ha]

/-- C10: any change in the reported position of a monitored playing source —
decreases such as a loop wrapping back included — resets
`consecutiveFailures` to 0 and updates the freeze-tracking pair to the
observed position and time (unless that same tick issues a successful frozen
restart, which clears the pair).  A frozen restart can only be issued on a
tick whose reported position differs from the tracked one by strictly less
than the 0.1 epsilon after `FREEZE_THRESHOLD` seconds without progress; and
from cleared tracking, at least two playing monitored observations are
needed before any frozen restart. -/
theorem watchdog_position_change (s : WState) (o : Obs) (r : Report)
    (h1 : o.report = some r) (hr : isRtspStream r.source = true)
    (hst : r.status = PStatus.playing) (hmpv : o.mpvRunning = true)
    (hch : s.lastPosition ≠ some r.position)
    (hgate : backoffActive s = false ∨ ¬ o.time < s.backoffUntil.getD 0) :
    ((wstep s o).1.consecutiveFailures = 0 ∧
     (((wstep s o).1.lastPosition = some r.position ∧
       (wstep s o).1.lastPositionTime = some o.time) ∨
      ((wstep s o).2 = some Reason.frozen ∧ (wstep s o).1.lastPosition = none))) ∧
    (∀ s2 o2, (wstep s2 o2).2 = some Reason.frozen →
      ∃ r2 lp lpt, o2.report = some r2 ∧ r2.status = PStatus.playing ∧
        isRtspStream r2.source = true ∧ o2.mpvRunning = true ∧
        s2.lastPosition = some lp ∧ s2.lastPositionTime = some lpt ∧
        |r2.position - lp| < 1/10 ∧ o2.time - lpt ≥ FREEZE_THRESHOLD) ∧
    (∀ (s3 : WState) (os : List Obs) (k : Nat), s3.lastPosition = none →
      (wtrace s3 os).get? k = some (some Reason.frozen) →
      2 ≤ (os.take (k+1)).countP isPlayingMonitoredObs) := by
  refine ⟨?_, fun s2 o2 hf => wstep_frozen_inv s2 o2 hf,
    fun s3 os k h0 hk => wtrace_frozen_two os s3 k h0 hk⟩
  by_cases hba : backoffActive s = true
  · have hlt : ¬ o.time < s.backoffUntil.getD 0 := by
      rcases hgate with hg | hg
      · rw [hba] at hg
        exact absurd hg (by simp)
      · exact hg
    have hw : wstep s o = wstepMain { s with inBackoff := false, restartAttempts := 0 } o := by
      simp [wstep, hba, hlt]
    rw [hw]
    exact wstepMain_position_change _ o r h1 hr hst hmpv (by simpa using hch)
  · have hw : wstep s o = wstepMain s o := by simp [wstep, hba]
    rw [hw]
    exact wstepMain_position_change s o r h1 hr hst hmpv hch

/-- A watchdog state tracking position 5 since time 10, with two accumulated
failures. -/
def wposState : WState :=
  { initialWState with
      lastSource := some "rtsp://cam/stream"
      lastPosition := some 5
      lastPositionTime := some 10
      consecutiveFailures := 2 }

/-- C10, witnessed: a playing observation at time 20 whose position dropped
from the tracked 5 to 3 (a decrease, as after a loop restart) resets the
failure counter and re-tracks the pair at `(3, 20)`. -/
theorem watchdog_position_change_witness :
    (wstep wposState (obsPlaying 20 3)).1.consecutiveFailures = 0 ∧
    (((wstep wposState (obsPlaying 20 3)).1.lastPosition = some 3 ∧
      (wstep wposState (obsPlaying 20 3)).1.lastPositionTime = some 20) ∨
     ((wstep wposState (obsPlaying 20 3)).2 = some Reason.frozen ∧
      (wstep wposState (obsPlaying 20 3)).1.lastPosition = none)) :=
  (watchdog_position_change wposState (obsPlaying 20 3)
    { status := .playing, source := some "rtsp://cam/stream", position := 3,
      loop := true, volume := 50 }
    rfl (by decide) rfl rfl (by decide) (Or.inl rfl)).1

end Watchdog

